import Mathlib

/-!
Verification development for the LettuceDetect hallucination-detection core.

The Lean definitions below are shallow embeddings of the Python sources
`lettucedetect/models/inference.py`, `lettucedetect/models/evaluator.py` and
`scripts/chatgpt_baseline.py`.  Machine floats are modelled by the rationals
(the operations used by the code are comparisons, max, sums and divisions),
Python ints by `Int` (character offsets from the tokenizer by `Nat` where the
source guarantees non-negativity), fallible code by `Except String`.
External collaborators (the tokenizer, the classifier network, the OpenAI
client) are inputs of the embedded functions, exactly as the specification
treats them.  Calls into scikit-learn are modelled by dedicated definitions
whose doc comments record the modelled behaviour.
-/

namespace LettuceDetect

/-! ### Python string primitives -/

/-- Opening curly brace character, kept as a named constant. -/
def lbrace : Char := Char.ofNat 123

/-- Closing curly brace character. -/
def rbrace : Char := Char.ofNat 125

/-- Double quote character. -/
def dquote : Char := Char.ofNat 34

/-- Backslash character. -/
def bslash : Char := Char.ofNat 92

/-- Normalization of one Python slice index for a sequence of length `n`:
negative indices count from the right and clamp at 0, non-negative indices
clamp at `n`. -/
def pyIndex (n : Nat) (i : Int) : Nat :=
  if i < 0 then ((n : Int) + i).toNat else min i.toNat n

/-- Python string slicing `s[a:b]` (step 1), in character units, with the
usual clamping of out-of-range and negative indices. -/
def pySlice (s : String) (a b : Int) : String :=
  let cs := s.toList
  let lo := pyIndex cs.length a
  let hi := pyIndex cs.length b
  String.mk ((cs.drop lo).take (hi - lo))

/-! ### Span Builder (TransformerDetector._predict, output_format = "spans")

One element of the token stream that `_predict` iterates over: the decoded
token text, the label produced by the masking step (`-100` for positions
before the answer or padding, `0` otherwise), the character offsets of the
token from the tokenizer offset mapping, the argmax class of the classifier
logits and the softmax probability of class 1. -/

structure TokenPred where
  tok : String
  label : Int
  tokStart : Nat
  tokEnd : Nat
  pred : Nat
  prob1 : ℚ
deriving Repr, DecidableEq

/-- The span currently being built, before its text is extracted.
The source field names are `start`, `end`, `confidence`; `end` is a Lean
keyword, so the field is called `stop` here. -/
structure OpenSpan where
  start : Int
  stop : Int
  confidence : ℚ
deriving Repr, DecidableEq

/-- A materialized predicted span (dict with keys start, end, confidence,
text in the source; `end` is rendered as `stop`). -/
structure Span where
  start : Int
  stop : Int
  confidence : ℚ
  text : String
deriving Repr, DecidableEq

/-- The loop state of the span reconstruction: the emitted spans and the
optional open span (`spans` and `current_span` in the source). -/
structure BuildState where
  spans : List Span
  current : Option OpenSpan
deriving Repr, DecidableEq

/-- Materialization of an open span: the text is `answer[start:end]`. -/
def finishSpan (answer : String) (c : OpenSpan) : Span :=
  { start := c.start, stop := c.stop, confidence := c.confidence,
    text := pySlice answer c.start c.stop }

/-- One iteration of the span loop of `TransformerDetector._predict`:
skip ignored tokens (label `-100`) and zero-width tokens, convert the token
offsets to answer-relative offsets, then open, extend or close the current
span according to the predicted class. -/
def spanStep (answer : String) (answerCharOffset : Int) (st : BuildState)
    (t : TokenPred) : BuildState :=
  if t.label = -100 then st
  else if t.tokStart = t.tokEnd then st
  else
    let relStart : Int := (t.tokStart : Int) - answerCharOffset
    let relEnd : Int := (t.tokEnd : Int) - answerCharOffset
    let isHallucination := t.pred = 1
    let confidence : ℚ := if isHallucination then t.prob1 else 0
    if isHallucination then
      match st.current with
      | none =>
          { st with current := some { start := relStart, stop := relEnd, confidence := confidence } }
      | some c =>
          { st with current := some { start := c.start, stop := relEnd, confidence := max c.confidence confidence } }
    else
      match st.current with
      | none => st
      | some c => { spans := st.spans ++ [finishSpan answer c], current := none }

/-- The Span Builder: the whole `output_format == "spans"` branch of
`TransformerDetector._predict`, including the final materialization of a
span still open when the stream ends. -/
def spanBuilder (answer : String) (answerCharOffset : Int)
    (toks : List TokenPred) : List Span :=
  let st := toks.foldl (spanStep answer answerCharOffset) { spans := [], current := none }
  match st.current with
  | none => st.spans
  | some c => st.spans ++ [finishSpan answer c]

/-! ### Regex and JSON model for LLMDetector._create_labels

The source extracts a brace-delimited substring with
`re.search` on the DOTALL pattern consisting of an opening brace, a lazy
dot-star and a closing brace, parses it with `json.loads`, and searches the
answer for each listed hallucination string with
`re.search(re.escape(hal), answer)` (a literal substring search). -/

/-- Model of the brace regex search: the leftmost match starts at the first
opening brace that is followed by a closing brace, and the lazy quantifier
ends it at the first closing brace after that; `none` when no such pair of
braces exists (in Python, `re.search` returns `None`). -/
def reSearchBrace (s : String) : Option String :=
  match s.toList.dropWhile (fun c => c ≠ lbrace) with
  | [] => none
  | c :: rest =>
      let body := rest.takeWhile (fun c => c ≠ rbrace)
      if body.length = rest.length then none
      else some (String.mk (c :: (body ++ [rbrace])))

/-- JSON values as produced by `json.loads`: numbers are collapsed to one
rational constructor (int vs float does not matter to any claim), and the
non-finite literals NaN, Infinity, -Infinity that `json.loads` accepts by
default get a dedicated constructor. -/
inductive Json where
  | null : Json
  | bool : Bool → Json
  | num : ℚ → Json
  | nonfinite : String → Json
  | str : String → Json
  | arr : List Json → Json
  | obj : List (String × Json) → Json

/-- JSON whitespace characters (space, tab, linefeed, carriage return). -/
def jsonWs (c : Char) : Bool :=
  c = ' ' || c = Char.ofNat 9 || c = Char.ofNat 10 || c = Char.ofNat 13

/-- Drop leading JSON whitespace. -/
def skipWs (cs : List Char) : List Char :=
  cs.dropWhile jsonWs

/-- Hexadecimal digit value. -/
def hexVal (c : Char) : Option Nat :=
  if '0' ≤ c ∧ c ≤ '9' then some (c.toNat - 48)
  else if 'a' ≤ c ∧ c ≤ 'f' then some (c.toNat - 87)
  else if 'A' ≤ c ∧ c ≤ 'F' then some (c.toNat - 70)
  else none

/-- Decimal digit test. -/
def isDigit (c : Char) : Bool := '0' ≤ c && c ≤ '9'

/-- Value of a list of decimal digits. -/
def digitsVal (ds : List Char) : Nat :=
  ds.foldl (fun a c => 10 * a + (c.toNat - 48)) 0

/-- Parser of the body of a JSON string literal, positioned after the opening
quote.  Python json (strict mode, the default) rejects unescaped control
characters; the escapes are the standard eight plus 4-digit unicode escapes.
A surrogate pair is combined into one character; a lone surrogate, which
Python would keep in the str, has no Lean `Char` counterpart and is mapped to
the replacement character U+FFFD (no claim exercises lone surrogates). -/
def parseStringBody : Nat → List Char → List Char → Except String (String × List Char)
  | 0, _, _ => .error "JSONDecodeError: fuel"
  | _, _, [] => .error "JSONDecodeError: unterminated string"
  | fuel + 1, acc, c :: rest =>
    if c = dquote then .ok (String.mk acc.reverse, rest)
    else if c = bslash then
      match rest with
      | [] => .error "JSONDecodeError: unterminated string"
      | e :: rest2 =>
        if e = dquote then parseStringBody fuel (dquote :: acc) rest2
        else if e = bslash then parseStringBody fuel (bslash :: acc) rest2
        else if e = '/' then parseStringBody fuel ('/' :: acc) rest2
        else if e = 'b' then parseStringBody fuel (Char.ofNat 8 :: acc) rest2
        else if e = 'f' then parseStringBody fuel (Char.ofNat 12 :: acc) rest2
        else if e = 'n' then parseStringBody fuel (Char.ofNat 10 :: acc) rest2
        else if e = 'r' then parseStringBody fuel (Char.ofNat 13 :: acc) rest2
        else if e = 't' then parseStringBody fuel (Char.ofNat 9 :: acc) rest2
        else if e = 'u' then
          match rest2 with
          | h1 :: h2 :: h3 :: h4 :: rest3 =>
            match hexVal h1, hexVal h2, hexVal h3, hexVal h4 with
            | some a, some b, some c2, some d =>
              let n := ((a * 16 + b) * 16 + c2) * 16 + d
              if 0xD800 ≤ n ∧ n < 0xDC00 then
                match rest3 with
                | u1 :: u2 :: h5 :: h6 :: h7 :: h8 :: rest4 =>
                  if u1 = bslash ∧ u2 = 'u' then
                    match hexVal h5, hexVal h6, hexVal h7, hexVal h8 with
                    | some a2, some b2, some c3, some d2 =>
                      let m := ((a2 * 16 + b2) * 16 + c3) * 16 + d2
                      if 0xDC00 ≤ m ∧ m < 0xE000 then
                        parseStringBody fuel
                          (Char.ofNat (0x10000 + (n - 0xD800) * 0x400 + (m - 0xDC00)) :: acc) rest4
                      else parseStringBody fuel (Char.ofNat 0xFFFD :: acc) rest3
                    | _, _, _, _ => parseStringBody fuel (Char.ofNat 0xFFFD :: acc) rest3
                  else parseStringBody fuel (Char.ofNat 0xFFFD :: acc) rest3
                | _ => parseStringBody fuel (Char.ofNat 0xFFFD :: acc) rest3
              else if 0xDC00 ≤ n ∧ n < 0xE000 then
                parseStringBody fuel (Char.ofNat 0xFFFD :: acc) rest3
              else parseStringBody fuel (Char.ofNat n :: acc) rest3
            | _, _, _, _ => .error "JSONDecodeError: invalid unicode escape"
          | _ => .error "JSONDecodeError: invalid unicode escape"
        else .error "JSONDecodeError: invalid escape"
    else if c.toNat < 32 then .error "JSONDecodeError: invalid control character"
    else parseStringBody fuel (c :: acc) rest

/-- Parser of a JSON number after an optional leading minus sign already
consumed (`neg` records it): strict JSON grammar (no leading zeros, the
fraction and the exponent need at least one digit). -/
def parseNumberTail (neg : Bool) (cs : List Char) : Except String (ℚ × List Char) :=
  let intDigits := cs.takeWhile isDigit
  let rest := cs.drop intDigits.length
  if intDigits.isEmpty then .error "JSONDecodeError: expecting value"
  else if intDigits.length > 1 ∧ intDigits.head? = some '0' then
    .error "JSONDecodeError: leading zero"
  else
    let ipart : ℚ := (digitsVal intDigits : ℚ)
    let step1 : Except String (ℚ × List Char) :=
      match rest with
      | '.' :: r2 =>
          let fds := r2.takeWhile isDigit
          if fds.isEmpty then .error "JSONDecodeError: expecting digit"
          else .ok (ipart + (digitsVal fds : ℚ) / (10 : ℚ) ^ fds.length, r2.drop fds.length)
      | _ => .ok (ipart, rest)
    match step1 with
    | .error e => .error e
    | .ok (v, r3) =>
      let withExp : Except String (ℚ × List Char) :=
        match r3 with
        | e :: r4 =>
          if e = 'e' ∨ e = 'E' then
            let (esign, r5) :=
              match r4 with
              | '+' :: r5 => ((1 : Int), r5)
              | '-' :: r5 => ((-1 : Int), r5)
              | _ => ((1 : Int), r4)
            let eds := r5.takeWhile isDigit
            if eds.isEmpty then .error "JSONDecodeError: expecting digit"
            else .ok (v * (10 : ℚ) ^ (esign * (digitsVal eds : Int)), r5.drop eds.length)
          else .ok (v, r3)
        | _ => .ok (v, r3)
      match withExp with
      | .error e => .error e
      | .ok (v, r6) => .ok (if neg then -v else v, r6)

/-- Insertion of a key into a parsed object the way a Python dict literal is
built: an existing key keeps its position and gets the new value (last value
wins), a new key is appended. -/
def upsertKV (acc : List (String × Json)) (k : String) (v : Json) :
    List (String × Json) :=
  if acc.any (fun kv => kv.1 == k) then
    acc.map (fun kv => if kv.1 == k then (kv.1, v) else kv)
  else acc ++ [(k, v)]

mutual

/-- Model of the recursive-descent value parser of `json.loads`. The fuel
argument only serves termination; `jsonParse` supplies more fuel than any
input can consume, so fuel exhaustion is unreachable. -/
def parseValue : Nat → List Char → Except String (Json × List Char)
  | 0, _ => .error "JSONDecodeError: fuel"
  | fuel + 1, cs =>
    match skipWs cs with
    | [] => .error "JSONDecodeError: expecting value"
    | c :: rest =>
      if c = lbrace then
        match skipWs rest with
        | d :: rest2 =>
          if d = rbrace then .ok (.obj [], rest2)
          else
            match parseMembers fuel (d :: rest2) [] with
            | .error e => .error e
            | .ok (kvs, r) => .ok (.obj kvs, r)
        | [] => .error "JSONDecodeError: expecting property name"
      else if c = '[' then
        match skipWs rest with
        | d :: rest2 =>
          if d = ']' then .ok (.arr [], rest2)
          else
            match parseItems fuel (d :: rest2) [] with
            | .error e => .error e
            | .ok (items, r) => .ok (.arr items, r)
        | [] => .error "JSONDecodeError: expecting value"
      else if c = dquote then
        match parseStringBody (rest.length + 1) [] rest with
        | .error e => .error e
        | .ok (s, r) => .ok (.str s, r)
      else if c = 't' then
        match rest with
        | 'r' :: 'u' :: 'e' :: r => .ok (.bool true, r)
        | _ => .error "JSONDecodeError: expecting value"
      else if c = 'f' then
        match rest with
        | 'a' :: 'l' :: 's' :: 'e' :: r => .ok (.bool false, r)
        | _ => .error "JSONDecodeError: expecting value"
      else if c = 'n' then
        match rest with
        | 'u' :: 'l' :: 'l' :: r => .ok (.null, r)
        | _ => .error "JSONDecodeError: expecting value"
      else if c = 'N' then
        match rest with
        | 'a' :: 'N' :: r => .ok (.nonfinite "NaN", r)
        | _ => .error "JSONDecodeError: expecting value"
      else if c = 'I' then
        match rest with
        | 'n' :: 'f' :: 'i' :: 'n' :: 'i' :: 't' :: 'y' :: r => .ok (.nonfinite "Infinity", r)
        | _ => .error "JSONDecodeError: expecting value"
      else if c = '-' then
        match rest with
        | 'I' :: 'n' :: 'f' :: 'i' :: 'n' :: 'i' :: 't' :: 'y' :: r =>
            .ok (.nonfinite "-Infinity", r)
        | _ =>
          match parseNumberTail true rest with
          | .error e => .error e
          | .ok (q, r) => .ok (.num q, r)
      else if isDigit c then
        match parseNumberTail false (c :: rest) with
        | .error e => .error e
        | .ok (q, r) => .ok (.num q, r)
      else .error "JSONDecodeError: expecting value"

/-- Members of a JSON object, positioned at the first character of a
property name (not whitespace, not a closing brace). -/
def parseMembers : Nat → List Char → List (String × Json) →
    Except String (List (String × Json) × List Char)
  | 0, _, _ => .error "JSONDecodeError: fuel"
  | fuel + 1, cs, acc =>
    match skipWs cs with
    | [] => .error "JSONDecodeError: expecting property name"
    | c :: rest =>
      if c = dquote then
        match parseStringBody (rest.length + 1) [] rest with
        | .error e => .error e
        | .ok (k, r) =>
          match skipWs r with
          | ':' :: r2 =>
            match parseValue fuel r2 with
            | .error e => .error e
            | .ok (v, r3) =>
              let acc2 := upsertKV acc k v
              match skipWs r3 with
              | ',' :: r4 => parseMembers fuel r4 acc2
              | d :: r4 =>
                  if d = rbrace then .ok (acc2, r4)
                  else .error "JSONDecodeError: expecting comma delimiter"
              | [] => .error "JSONDecodeError: expecting comma delimiter"
          | _ => .error "JSONDecodeError: expecting colon delimiter"
      else .error "JSONDecodeError: expecting property name"

/-- Items of a JSON array, positioned at the first character of a value. -/
def parseItems : Nat → List Char → List Json →
    Except String (List Json × List Char)
  | 0, _, _ => .error "JSONDecodeError: fuel"
  | fuel + 1, cs, acc =>
    match parseValue fuel cs with
    | .error e => .error e
    | .ok (v, r) =>
      match skipWs r with
      | ',' :: r2 => parseItems fuel r2 (acc ++ [v])
      | ']' :: r2 => .ok (acc ++ [v], r2)
      | _ => .error "JSONDecodeError: expecting comma delimiter"

end

/-- Model of `json.loads`: parse one value and require only whitespace after
it (otherwise Python raises JSONDecodeError "Extra data").  The fuel
`2 * length + 2` dominates the recursion depth, which grows by at most two
per consumed character. -/
def jsonParse (s : String) : Except String Json :=
  let cs := s.toList
  match parseValue (2 * cs.length + 2) cs with
  | .error e => .error e
  | .ok (j, rest) =>
      if (skipWs rest).isEmpty then .ok j
      else .error "JSONDecodeError: extra data"

/-! ### Label creation from the parsed LLM response -/

/-- A label dict produced by `_create_labels` / `create_labels` (keys start,
end, text in the source; `end` is a Lean keyword and is rendered `stop`).
Offsets are `Nat` because they come from `re.Match.start` and `end`. -/
structure HalLabel where
  start : Nat
  stop : Nat
  text : String
deriving Repr, DecidableEq

/-- Position of the first occurrence of `pat` inside `hay` (the model of
`re.search(re.escape(pat), hay)`: an escaped pattern matches literally, and
`re.search` reports the leftmost match).  The empty pattern matches at 0. -/
def findSub (pat : List Char) : List Char → Option Nat
  | [] => if pat.isPrefixOf [] then some 0 else none
  | c :: t =>
      if pat.isPrefixOf (c :: t) then some 0
      else (findSub pat t).map (· + 1)

/-- The loop shared by `LLMDetector._create_labels` and
`chatgpt_baseline.create_labels`: for every listed hallucination string that
occurs in the answer, append a label dict with the match bounds; strings
with no match are dropped. -/
def create_labels_loop (hals : List String) (answer : String) : List HalLabel :=
  hals.filterMap (fun hal =>
    (findSub hal.toList answer.toList).map (fun i =>
      { start := i, stop := i + hal.length, text := hal }))

/-- Python dict lookup on a parsed object (keys are unique after
`upsertKV`). -/
def objGet (kvs : List (String × Json)) (k : String) : Option Json :=
  (kvs.find? (fun kv => kv.1 == k)).map (·.2)

/-- Model of `hal_dict["hallucination list"]` followed by iteration:
a missing key raises KeyError, a non-dict raises TypeError, iterating a
string yields its characters (Python string iteration), iterating any other
non-list raises TypeError, and a non-string element makes `re.escape` raise.
None of these exceptions is `json.JSONDecodeError`, so none is caught by the
`except` clause of the source. -/
def halListOf (j : Json) : Except String (List String) :=
  match j with
  | .obj kvs =>
    match objGet kvs "hallucination list" with
    | none => .error "KeyError: hallucination list"
    | some v =>
      match v with
      | .arr items =>
          items.mapM (fun it =>
            match it with
            | .str s => Except.ok s
            | _ => Except.error "TypeError: expected string or bytes-like object")
      | .str s => .ok (s.toList.map (fun c => String.mk [c]))
      | _ => .error "TypeError: object is not iterable"
  | .arr _ => .error "TypeError: list indices must be integers"
  | .str _ => .error "TypeError: string indices must be integers"
  | _ => .error "TypeError: object is not subscriptable"

/-- Model of `LLMDetector._create_labels`.  The regex search result is used
unconditionally (`match_dict.group(0)`), so when no brace pair exists the
call raises AttributeError — only `json.JSONDecodeError` is caught and turned
into the empty label list. -/
def create_labels (llm_content answer : String) : Except String (List HalLabel) :=
  match reSearchBrace llm_content with
  | none => .error "AttributeError: NoneType object has no attribute group"
  | some sub =>
    match jsonParse sub with
    | .error _ => .ok []
    | .ok j =>
      match halListOf j with
      | .error e => .error e
      | .ok hals => .ok (create_labels_loop hals answer)

/-- Model of the label-extraction part of
`chatgpt_baseline.create_sample_baseline`: identical regex and parse, but on
`json.JSONDecodeError` the code still calls `create_labels` with the
unparsed string bound to `extracted_json`, which indexes a `str` with a
`str` key: TypeError. -/
def create_sample_baseline_labels (chat_response answer : String) :
    Except String (List HalLabel) :=
  match reSearchBrace chat_response with
  | none => .error "AttributeError: NoneType object has no attribute group"
  | some sub =>
    match jsonParse sub with
    | .error _ => .error "TypeError: string indices must be integers"
    | .ok j =>
      match halListOf j with
      | .error e => .error e
      | .ok hals => .ok (create_labels_loop hals answer)

/-- A concrete LLM response used as a test input: a valid JSON object with a
key other than the hallucination list (spelled out character by character,
braces and quotes included). -/
def otherKeyContent : String :=
  String.mk ([lbrace, dquote] ++ "other".toList ++ [dquote] ++ ": 1".toList ++ [rbrace])

/-! ### Output-format dispatch of the detectors -/

/-- One entry of the `output_format == "tokens"` result of
`TransformerDetector._predict`. -/
structure TokenProb where
  token : String
  pred : Nat
  prob : ℚ
deriving Repr, DecidableEq

/-- The token branch of `TransformerDetector._predict`: every non-ignored
token contributes its decoded text, predicted class, and class-1
probability. -/
def token_probs (toks : List TokenPred) : List TokenProb :=
  (toks.filter (fun t => t.label != -100)).map
    (fun t => { token := t.tok, pred := t.pred, prob := t.prob1 })

/-- The two possible result shapes of `TransformerDetector._predict`. -/
inductive PredOutput where
  | tokens : List TokenProb → PredOutput
  | spans : List Span → PredOutput
deriving Repr, DecidableEq

/-- Truth-value test for an `Except`. -/
def isOkE {α : Type} (e : Except String α) : Bool :=
  match e with
  | .ok _ => true
  | .error _ => false

/-- Model of `TransformerDetector._predict` after the external model call:
the token stream, the answer and the answer character offset stand for the
tokenizer and classifier outputs; only the output-format dispatch and the
two result branches belong to the repository. -/
def TransformerDetector_predict (toks : List TokenPred) (answer : String)
    (answerCharOffset : Int) (output_format : String) : Except String PredOutput :=
  if output_format = "tokens" then .ok (.tokens (token_probs toks))
  else if output_format = "spans" then
    .ok (.spans (spanBuilder answer answerCharOffset toks))
  else .error "ValueError: invalid output_format, use tokens or spans"

/-- Model of `LLMDetector._predict` after the external chat-completion call:
`llm_content` stands for the response text.  Every output format other than
"spans" raises ValueError. -/
def LLMDetector_predict (llm_content answer : String) (output_format : String) :
    Except String (List HalLabel) :=
  if output_format = "spans" then create_labels llm_content answer
  else .error "ValueError: this model can only predict hallucination spans"

/-- The variant selected by the facade. -/
inductive DetectorKind where
  | transformer : DetectorKind
  | llm : DetectorKind
deriving Repr, DecidableEq

/-- Model of the method dispatch in `HallucinationDetector.__init__`. -/
def HallucinationDetector_init (method : String) : Except String DetectorKind :=
  if method = "transformer" then .ok .transformer
  else if method = "llm" then .ok .llm
  else .error "ValueError: unsupported method, choose transformer or llm"

/-! ### Classification Aggregator (models of the scikit-learn calls)

All evaluation functions funnel their accumulated label/prediction lists
through `precision_recall_fscore_support(labels=[0,1], average=None)` and
`roc_curve` + `auc`. -/

/-- Per-class metrics triple. -/
structure ClassMetrics where
  precision : ℚ
  «recall» : ℚ
  f1 : ℚ
deriving Repr, DecidableEq

/-- The all-zero metrics triple. -/
def zeroCM : ClassMetrics := { precision := 0, «recall» := 0, f1 := 0 }

/-- Model of one class of `precision_recall_fscore_support` (one-vs-rest
confusion counts).  `zero_division=0` turns an undefined precision (no
predicted positives) or recall (no actual positives) into 0; the library
default `zero_division="warn"` used by `evaluate_model` produces the same
value 0 and only adds a warning. -/
def classMetrics (labels preds : List Int) (c : Int) : ClassMetrics :=
  let pp := (preds.filter (fun p => p == c)).length
  let ap := (labels.filter (fun l => l == c)).length
  let tp := ((labels.zip preds).filter (fun lp => lp.1 == c && lp.2 == c)).length
  let prec : ℚ := if pp = 0 then 0 else (tp : ℚ) / (pp : ℚ)
  let recl : ℚ := if ap = 0 then 0 else (tp : ℚ) / (ap : ℚ)
  { precision := prec, «recall» := recl,
    f1 := if prec + recl = 0 then 0 else 2 * prec * recl / (prec + recl) }

/-- Model of `precision_recall_fscore_support(labels=[0,1], average=None)`:
the metrics of class 0 and class 1. -/
def prfs (labels preds : List Int) : ClassMetrics × ClassMetrics :=
  (classMetrics labels preds 0, classMetrics labels preds 1)

/-- Model of `sklearn.metrics.roc_curve` followed by `auc`.
Errors modelled after the library: a length mismatch fails
`check_consistent_length`, and an empty or non-binary `y_true` is rejected
inside `_binary_clf_curve` (`pos_label` consistency / multiclass check) —
in particular the empty-corpus case raises, it does not return 0.
When only one class is present the returned curve is all-NaN and `auc`
propagates NaN, modelled as `none`.  Otherwise the trapezoidal area under
the ROC curve is returned; it equals the ties-adjusted Mann-Whitney
statistic computed here. -/
def aurocOf (ys : List Int) (scores : List ℚ) : Except String (Option ℚ) :=
  if ys.length ≠ scores.length then
    .error "ValueError: inconsistent numbers of samples"
  else if ys.isEmpty then
    .error "ValueError: y_true is empty, pos_label cannot be inferred"
  else if ys.any (fun y => y != 0 && y != 1) then
    .error "ValueError: y_true is not binary"
  else
    let pos := ((ys.zip scores).filter (fun p => p.1 == 1)).map (fun p => p.2)
    let neg := ((ys.zip scores).filter (fun p => p.1 != 1)).map (fun p => p.2)
    if pos.isEmpty || neg.isEmpty then .ok none
    else
      let wins : ℚ :=
        (pos.map (fun p =>
          (neg.map (fun n => if n < p then (1 : ℚ) else if n = p then 1 / 2 else 0)).sum)).sum
      .ok (some (wins / ((pos.length : ℚ) * (neg.length : ℚ))))

/-- The metrics mapping returned by the evaluation functions (the verbose
classification-report string is console formatting and out of scope). -/
structure EvalResults where
  supported : ClassMetrics
  hallucinated : ClassMetrics
  auroc : Option ℚ
deriving Repr, DecidableEq

/-- The shared finalization of the evaluation functions: per-class metrics
first, then AUROC; an exception from the ROC computation propagates. -/
def finalizeResults (labels preds : List Int) (scores : List ℚ) :
    Except String EvalResults :=
  let m := prfs labels preds
  match aurocOf labels scores with
  | .error e => .error e
  | .ok a => .ok { supported := m.1, hallucinated := m.2, auroc := a }

/-! ### Token-level and example-level evaluation of a token model -/

/-- One classified token position as seen by `evaluate_model` and
`evaluate_model_example_level`: gold label (`-100` = ignored), argmax
prediction, class-1 probability. -/
structure EvalTok where
  label : Int
  pred : Int
  prob1 : ℚ
deriving Repr, DecidableEq

/-- Model of `evaluate_model`: all tokens with a label other than -100,
across all batches in order, feed the aggregator; the ROC curve is built
over the discrete predictions. -/
def evaluate_model (batches : List (List EvalTok)) : Except String EvalResults :=
  let valid := batches.flatten.filter (fun t => t.label != -100)
  let all_labels := valid.map (fun t => t.label)
  let all_preds := valid.map (fun t => t.pred)
  finalizeResults all_labels all_preds (all_preds.map (fun p => (p : ℚ)))

/-- The per-example result of `evaluate_model_example_level` (spec
ExampleResult): gold label, predicted label, max class-1 probability. -/
structure ExampleResult where
  label : Int
  pred : Int
  score : ℚ
deriving Repr, DecidableEq

/-- Maximum of a list of rationals (`Tensor.max` on a non-empty tensor);
0 on the empty list, which the caller never passes. -/
def listMax : List ℚ → ℚ
  | [] => 0
  | x :: xs => xs.foldl max x

/-- The per-example derivation of `evaluate_model_example_level`: on zero
valid tokens both labels and the score default to 0; otherwise the example
is positive iff some valid token is, on each side, and the score is the
maximum class-1 probability over valid tokens. -/
def exampleResult (toks : List EvalTok) : ExampleResult :=
  let valid := toks.filter (fun t => t.label != -100)
  if valid.isEmpty then { label := 0, pred := 0, score := 0 }
  else
    { label := if valid.any (fun t => t.label == 1) then 1 else 0,
      pred := if valid.any (fun t => t.pred == 1) then 1 else 0,
      score := listMax (valid.map (fun t => t.prob1)) }

/-- Model of `evaluate_model_example_level`: one `ExampleResult` per example
in batch order, aggregated with the example probabilities as ROC scores. -/
def evaluate_model_example_level (batches : List (List (List EvalTok))) :
    Except String EvalResults :=
  let results := batches.flatten.map exampleResult
  finalizeResults (results.map (fun r => r.label)) (results.map (fun r => r.pred))
    (results.map (fun r => r.score))

/-! ### Detector-level evaluation over HallucinationSample lists -/

/-- A character span with start and end offsets (`end` rendered `stop`),
as used for gold labels and for predicted spans in the char-level
evaluator. -/
structure CSpan where
  start : Int
  stop : Int
deriving Repr, DecidableEq

/-- The fields of a `HallucinationSample` that the evaluators read.
`HallucinationSample` is defined in `lettucedetect/datasets`, outside the
included sources; the fields are modelled from its uses: `prompt`,
`answer`, the optional `answer_sentences` (falsy when absent or empty) and
the gold labels. -/
structure Sample where
  prompt : String
  answer : String
  answer_sentences : Option String
  labels : List CSpan
deriving Repr, DecidableEq

/-- Python truthiness fallback
`sample.answer_sentences if sample.answer_sentences else sample.answer`. -/
def effectiveAnswer (s : Sample) : String :=
  match s.answer_sentences with
  | some t => if t = "" then s.answer else t
  | none => s.answer

/-- Ground-truth example label: positive iff the gold span list is
non-empty (`1 if sample.labels else 0`). -/
def exampleLabelOf (s : Sample) : Int :=
  if s.labels.isEmpty then 0 else 1

/-- Predicted example label: positive iff the detector returns a non-empty
span list (`1 if predicted_spans else 0`). -/
def examplePredOf {α : Type} (d : String → String → List α) (s : Sample) : Int :=
  if (d s.prompt (effectiveAnswer s)).isEmpty then 0 else 1

/-- Model of `evaluate_detector_example_level`: the detector (an external
collaborator, modelled as a function from prompt and answer to a span list)
is called once per sample in corpus order; the accumulated label and
prediction lists feed the aggregator, with the discrete predictions as ROC
scores. -/
def evaluate_detector_example_level {α : Type} (d : String → String → List α)
    (samples : List Sample) : Except String EvalResults :=
  let pairs := samples.map (fun s => (exampleLabelOf s, examplePredOf d s))
  let example_labels := pairs.map (fun p => p.1)
  let example_preds := pairs.map (fun p => p.2)
  finalizeResults example_labels example_preds (example_preds.map (fun p => (p : ℚ)))

/-- The chunks `samples[i : i + batch_size]` for `i` in
`range(0, len(samples), batch_size)`.  Python raises ValueError on step 0;
here `batch_size = 0` gives `[]` and every claim assumes `1 ≤ batch_size`. -/
def chunkList {α : Type} (bs : Nat) : List α → List (List α)
  | [] => []
  | x :: xs =>
      if _h : bs = 0 then []
      else (x :: xs).take bs :: chunkList bs ((x :: xs).drop bs)
termination_by l => l.length
decreasing_by simp [List.length_drop]; omega

/-- Modelled from the spec: `predict_prompt_batch` is called by
`evaluate_detector_example_level_batch` but is not defined anywhere in the
included sources.  Per the specification (sections 4.4, 5 and 6) it is the
batched form of the span-producing detector interface: one span list per
input sample, aligned with the batch, computed by the same per-sample
detector; batching is solely a throughput knob. -/
def predict_prompt_batch {α : Type} (d : String → String → List α)
    (prompts answers : List String) : List (List α) :=
  (prompts.zip answers).map (fun pa => d pa.1 pa.2)

/-- The per-chunk accumulation of `evaluate_detector_example_level_batch`:
prompts and effective answers of the chunk are sent to the batched detector,
and the zip of chunk and predictions yields one (label, prediction) pair per
sample. -/
def batchAccum {α : Type} (d : String → String → List α) (chunk : List Sample) :
    List (Int × Int) :=
  let prompts := chunk.map (fun s => s.prompt)
  let answers := chunk.map effectiveAnswer
  let predicted := predict_prompt_batch d prompts answers
  (chunk.zip predicted).map
    (fun sp => (exampleLabelOf sp.1, if sp.2.isEmpty then 0 else 1))

/-- Model of `evaluate_detector_example_level_batch`. -/
def evaluate_detector_example_level_batch {α : Type}
    (d : String → String → List α) (samples : List Sample) (batch_size : Nat) :
    Except String EvalResults :=
  let pairs := ((chunkList batch_size samples).map (batchAccum d)).flatten
  let example_labels := pairs.map (fun p => p.1)
  let example_preds := pairs.map (fun p => p.2)
  finalizeResults example_labels example_preds (example_preds.map (fun p => (p : ℚ)))

/-! ### Character-level evaluation -/

/-- Length `end - start` of one span. -/
def spanLength (s : CSpan) : Int := s.stop - s.start

/-- Overlap of one (predicted, gold) pair as the source computes it:
`overlap_end - overlap_start` when positive, else no contribution. -/
def pairOverlap (p g : CSpan) : Int :=
  let overlap_start := max p.start g.start
  let overlap_stop := min p.stop g.stop
  if overlap_start < overlap_stop then overlap_stop - overlap_start else 0

/-- Per-corpus predicted-character total over (predicted, gold) span-list
pairs. -/
def totalPredictedChars (pg : List (List CSpan × List CSpan)) : Int :=
  (pg.map (fun e => ((e.1.map spanLength).sum))).sum

/-- Per-corpus gold-character total. -/
def totalGoldChars (pg : List (List CSpan × List CSpan)) : Int :=
  (pg.map (fun e => ((e.2.map spanLength).sum))).sum

/-- Per-corpus overlap total: every (predicted, gold) pair of every example
contributes, without any deduplication. -/
def totalOverlapChars (pg : List (List CSpan × List CSpan)) : Int :=
  (pg.map (fun e => ((e.1.map (fun p => (e.2.map (fun g => pairOverlap p g)).sum)).sum))).sum

/-- Model of `evaluate_detector_char_level`: the detector is called on
`sample.prompt` and `sample.answer` of every sample; the three global totals
produce precision, recall and F1 with explicit positive-denominator
guards. -/
def evaluate_detector_char_level (d : String → String → List CSpan)
    (samples : List Sample) : ℚ × ℚ × ℚ :=
  let pg := samples.map (fun s => (d s.prompt s.answer, s.labels))
  let total_predicted := totalPredictedChars pg
  let total_gold := totalGoldChars pg
  let total_overlap := totalOverlapChars pg
  let precision : ℚ :=
    if 0 < total_predicted then (total_overlap : ℚ) / (total_predicted : ℚ) else 0
  let recl : ℚ :=
    if 0 < total_gold then (total_overlap : ℚ) / (total_gold : ℚ) else 0
  let f1 : ℚ :=
    if 0 < precision + recl then 2 * precision * recl / (precision + recl) else 0
  (precision, recl, f1)

/-! ### Claim-side formulation of the character-level metrics (claim C3)

These definitions follow the wording of the claim, to be compared with the
source embedding `evaluate_detector_char_level`. -/

/-- Claim wording: overlap of one pair is
`max(0, min(pred.end, gold.end) - max(pred.start, gold.start))`. -/
def pairOverlapClaim (p g : CSpan) : Int :=
  max 0 (min p.stop g.stop - max p.start g.start)

/-- Claim wording: corpus overlap total via `pairOverlapClaim`. -/
def totalOverlapClaim (pg : List (List CSpan × List CSpan)) : Int :=
  (pg.map (fun e => ((e.1.map (fun p => (e.2.map (fun g => pairOverlapClaim p g)).sum)).sum))).sum

/-- Claim wording: precision is `total_overlap / total_predicted`, 0 when
`total_predicted == 0`. -/
def charPrecisionClaim (pg : List (List CSpan × List CSpan)) : ℚ :=
  if totalPredictedChars pg = 0 then 0
  else (totalOverlapClaim pg : ℚ) / (totalPredictedChars pg : ℚ)

/-- Claim wording: recall is `total_overlap / total_gold`, 0 when
`total_gold == 0`. -/
def charRecallClaim (pg : List (List CSpan × List CSpan)) : ℚ :=
  if totalGoldChars pg = 0 then 0
  else (totalOverlapClaim pg : ℚ) / (totalGoldChars pg : ℚ)

/-- Claim wording: F1 is the harmonic mean of precision and recall, 0 when
their sum is 0. -/
def charF1Claim (pg : List (List CSpan × List CSpan)) : ℚ :=
  let p := charPrecisionClaim pg
  let r := charRecallClaim pg
  if p + r = 0 then 0 else 2 * p * r / (p + r)

/-! ### Sentence-model evaluation -/

/-- One batch of the sentence-model loader: per-document logits (one
(class-0, class-1) row per sentence) and per-document label lists.  The two
lists may have different lengths; the source skips the excess with a
warning. -/
structure SentBatch where
  logits_list : List (List (ℚ × ℚ))
  labels_list : List (List Int)

/-- The result mapping of `evaluate_sentence_model`: the loss key is absent
(`none`) when no step completed, AUROC is NaN-able (`none`), the other
fields are always set. -/
structure SentenceResults where
  loss : Option ℚ
  supported : ClassMetrics
  hallucinated : ClassMetrics
  auroc : Option ℚ
  accuracy : ℚ
deriving Repr, DecidableEq

/-- The running accumulator of `evaluate_sentence_model`. -/
structure SentAccum where
  total_loss : ℚ
  step_count : Nat
  all_preds : List Int
  all_labels : List Int
deriving Repr, DecidableEq

/-- Argmax over one logits row (`torch.argmax(logits, dim=1)`), the first
maximal index on ties. -/
def rowArgmax (r : ℚ × ℚ) : Int :=
  if r.1 < r.2 then 1 else 0

/-- One document of a sentence-model batch: positions beyond `labels_list`
are skipped, empty logits are skipped, mismatched lengths are truncated to
the shorter one, the loss criterion (an external collaborator) is applied,
and predictions and labels are appended. The state is
(batch loss, document count, predictions, labels). -/
def sentDoc (crit : List (ℚ × ℚ) → List Int → ℚ) (labels_list : List (List Int))
    (st : ℚ × Nat × List Int × List Int) (ia : Nat × List (ℚ × ℚ)) :
    ℚ × Nat × List Int × List Int :=
  match labels_list[ia.1]? with
  | none => st
  | some labels_i =>
    if ia.2.length = 0 then st
    else
      let effective_size := min ia.2.length labels_i.length
      let logits := ia.2.take effective_size
      let labs := labels_i.take effective_size
      (st.1 + crit logits labs, st.2.1 + 1,
        st.2.2.1 ++ logits.map rowArgmax, st.2.2.2 ++ labs)

/-- One batch step of `evaluate_sentence_model`: fold the documents, then
fold the averaged batch loss into the accumulator when at least one document
contributed. -/
def sentBatchStep (crit : List (ℚ × ℚ) → List Int → ℚ) (acc : SentAccum)
    (b : SentBatch) : SentAccum :=
  let r := b.logits_list.enum.foldl (sentDoc crit b.labels_list)
    ((0 : ℚ), (0 : Nat), acc.all_preds, acc.all_labels)
  if 0 < r.2.1 then
    { total_loss := acc.total_loss + r.1 / (r.2.1 : ℚ), step_count := acc.step_count + 1,
      all_preds := r.2.2.1, all_labels := r.2.2.2 }
  else
    { total_loss := acc.total_loss, step_count := acc.step_count,
      all_preds := r.2.2.1, all_labels := r.2.2.2 }

/-- Model of `sklearn.metrics.accuracy_score` (fraction of exact matches);
the guard is only for totality, the caller never passes empty lists. -/
def accuracy_score (labels preds : List Int) : ℚ :=
  if labels.isEmpty then 0
  else (((labels.zip preds).filter (fun lp => lp.1 == lp.2)).length : ℚ) / (labels.length : ℚ)

/-- The zero-valued sentinel rows of `evaluate_sentence_model`. -/
def zeroSentence (loss : Option ℚ) : SentenceResults :=
  { loss := loss, supported := zeroCM, hallucinated := zeroCM,
    auroc := some 0, accuracy := 0 }

/-- Model of `evaluate_sentence_model`: accumulate over the batches, then
finalize.  Zero completed steps short-circuit to the zero sentinel (without
a loss entry); an empty prediction list yields the sentinel with the loss;
an exception inside the metric computation (the ROC call) is caught by the
broad `except` and also yields the sentinel with the loss. -/
def evaluate_sentence_model (crit : List (ℚ × ℚ) → List Int → ℚ)
    (batches : List SentBatch) : SentenceResults :=
  let acc := batches.foldl (sentBatchStep crit)
    { total_loss := 0, step_count := 0, all_preds := [], all_labels := [] }
  if acc.step_count = 0 then zeroSentence none
  else
    let loss := some (acc.total_loss / (acc.step_count : ℚ))
    if acc.all_preds.isEmpty then zeroSentence loss
    else
      let m := prfs acc.all_labels acc.all_preds
      let accv := accuracy_score acc.all_labels acc.all_preds
      match aurocOf acc.all_labels (acc.all_preds.map (fun p => (p : ℚ))) with
      | .error _ => zeroSentence loss
      | .ok a =>
          { loss := loss, supported := m.1, hallucinated := m.2,
            auroc := a, accuracy := accv }

/-! ## Theorems -/

/-- A token that the span loop skips: ignored label or zero width. -/
def skippedTok (t : TokenPred) : Prop :=
  t.label = -100 ∨ t.tokStart = t.tokEnd

theorem spanStep_skipped (answer : String) (off : Int) (st : BuildState)
    (t : TokenPred) (h : skippedTok t) : spanStep answer off st t = st := by
  rcases h with h | h <;> simp [spanStep, h]

theorem foldl_spanStep_skipped (answer : String) (off : Int) :
    ∀ (toks : List TokenPred) (st : BuildState),
      (∀ t ∈ toks, skippedTok t) →
      toks.foldl (spanStep answer off) st = st
  | [], _, _ => rfl
  | t :: rest, st, h => by
      rw [List.foldl_cons, spanStep_skipped answer off st t (h t (by simp))]
      exact foldl_spanStep_skipped answer off rest st (fun u hu => h u (by simp [hu]))

/-- Claim C1: the Span Builder merge step.  An eligible class-1 token opens
a new span when none is open and otherwise extends the open span to the
token's relative end with the maximum confidence, with no condition on the
character gap; an eligible class-0 token materializes the open span with
text `answer[start:end]`; a span still open at the end of the stream is
materialized and appended; a stream of zero eligible tokens yields the
empty list. -/
theorem C1_span_builder_merge :
    (∀ (answer : String) (off : Int) (st : BuildState) (t : TokenPred),
        t.label ≠ -100 → t.tokStart ≠ t.tokEnd → t.pred = 1 → st.current = none →
        spanStep answer off st t =
          { spans := st.spans,
            current := some { start := (t.tokStart : Int) - off,
                              stop := (t.tokEnd : Int) - off, confidence := t.prob1 } })
  ∧ (∀ (answer : String) (off : Int) (st : BuildState) (c : OpenSpan) (t : TokenPred),
        t.label ≠ -100 → t.tokStart ≠ t.tokEnd → t.pred = 1 → st.current = some c →
        spanStep answer off st t =
          { spans := st.spans,
            current := some { start := c.start, stop := (t.tokEnd : Int) - off,
                              confidence := max c.confidence t.prob1 } })
  ∧ (∀ (answer : String) (off : Int) (st : BuildState) (c : OpenSpan) (t : TokenPred),
        t.label ≠ -100 → t.tokStart ≠ t.tokEnd → t.pred = 0 → st.current = some c →
        spanStep answer off st t =
          { spans := st.spans ++
              [{ start := c.start, stop := c.stop, confidence := c.confidence,
                 text := pySlice answer c.start c.stop }],
            current := none })
  ∧ (∀ (answer : String) (off : Int) (toks : List TokenPred) (c : OpenSpan),
        (toks.foldl (spanStep answer off) { spans := [], current := none }).current = some c →
        spanBuilder answer off toks =
          (toks.foldl (spanStep answer off) { spans := [], current := none }).spans ++
            [finishSpan answer c])
  ∧ (∀ (answer : String) (off : Int) (toks : List TokenPred),
        (∀ t ∈ toks, t.label = -100 ∨ t.tokStart = t.tokEnd) →
        spanBuilder answer off toks = []) := by
  refine ⟨?_, ?_, ?_, ?_, ?_⟩
  · intro answer off st t h1 h2 h3 h4
    simp [spanStep, h1, h2, h3, h4]
  · intro answer off st c t h1 h2 h3 h4
    simp [spanStep, h1, h2, h3, h4]
  · intro answer off st c t h1 h2 h3 h4
    simp [spanStep, h1, h2, h3, h4, finishSpan]
  · intro answer off toks c hc
    simp only [spanBuilder, hc]
  · intro answer off toks h
    rw [spanBuilder, foldl_spanStep_skipped answer off toks _ h]

/-- Witness for claim C1: a concrete extension step across a character gap
(tokens end at 2 and restart at 4) keeps one span and takes the maximum
confidence; a stream with only an ignored token yields no spans. -/
theorem C1_span_builder_merge_witness :
    spanStep "abcdef" 0
        { spans := [], current := some { start := 0, stop := 2, confidence := 1 / 2 } }
        { tok := "x", label := 0, tokStart := 4, tokEnd := 6, pred := 1, prob1 := 3 / 4 } =
      { spans := [],
        current := some { start := 0, stop := 6, confidence := max (1 / 2) (3 / 4) } }
  ∧ spanBuilder "abc" 0
      [{ tok := "s", label := -100, tokStart := 0, tokEnd := 1, pred := 1, prob1 := 1 }] = [] := by
  constructor
  · exact C1_span_builder_merge.2.1 "abcdef" 0
      { spans := [], current := some { start := 0, stop := 2, confidence := 1 / 2 } }
      { start := 0, stop := 2, confidence := 1 / 2 }
      { tok := "x", label := 0, tokStart := 4, tokEnd := 6, pred := 1, prob1 := 3 / 4 }
      (by decide) (by decide) rfl rfl
  · exact C1_span_builder_merge.2.2.2.2 "abc" 0 _ (by decide)

/-- Claim C2: example-level labels.  The token-based evaluator marks an
example predicted-positive iff some valid (non-ignored) token is predicted
class 1 and gold-positive iff some valid token has gold label 1; with zero
valid tokens both labels and the AUROC score default to 0.  The span-based
evaluators mark an example predicted-positive iff the predicted span list is
non-empty and gold-positive iff the gold span list is non-empty. -/
theorem C2_example_level_labels :
    (∀ toks : List EvalTok,
        ((exampleResult toks).pred = 1 ↔
          ∃ t ∈ toks.filter (fun t => t.label != -100), t.pred = 1))
  ∧ (∀ toks : List EvalTok,
        ((exampleResult toks).label = 1 ↔
          ∃ t ∈ toks.filter (fun t => t.label != -100), t.label = 1))
  ∧ (∀ toks : List EvalTok,
        toks.filter (fun t => t.label != -100) = [] →
        exampleResult toks = { label := 0, pred := 0, score := 0 })
  ∧ (∀ {α : Type} (d : String → String → List α) (s : Sample),
        (examplePredOf d s = 1 ↔ d s.prompt (effectiveAnswer s) ≠ []))
  ∧ (∀ s : Sample, (exampleLabelOf s = 1 ↔ s.labels ≠ [])) := by
  refine ⟨?_, ?_, ?_, ?_, ?_⟩
  · intro toks
    by_cases h : (toks.filter (fun t => t.label != -100)).isEmpty
    · rw [List.isEmpty_iff] at h
      simp [exampleResult, h]
    · rw [exampleResult]
      simp only [h, Bool.false_eq_true, if_false]
      by_cases h2 : (toks.filter (fun t => t.label != -100)).any (fun t => t.pred == 1)
      · simp only [h2, if_true]
        obtain ⟨t, ht, hp⟩ := List.any_eq_true.mp h2
        exact iff_of_true trivial ⟨t, ht, by simpa using hp⟩
      · simp only [h2, Bool.false_eq_true, if_false]
        constructor
        · intro hc; exact absurd hc (by norm_num)
        · rintro ⟨t, ht, hp⟩
          exact absurd (List.any_eq_true.mpr ⟨t, ht, by simpa using hp⟩) h2
  · intro toks
    by_cases h : (toks.filter (fun t => t.label != -100)).isEmpty
    · rw [List.isEmpty_iff] at h
      simp [exampleResult, h]
    · rw [exampleResult]
      simp only [h, Bool.false_eq_true, if_false]
      by_cases h2 : (toks.filter (fun t => t.label != -100)).any (fun t => t.label == 1)
      · simp only [h2, if_true]
        obtain ⟨t, ht, hp⟩ := List.any_eq_true.mp h2
        exact iff_of_true trivial ⟨t, ht, by simpa using hp⟩
      · simp only [h2, Bool.false_eq_true, if_false]
        constructor
        · intro hc; exact absurd hc (by norm_num)
        · rintro ⟨t, ht, hp⟩
          exact absurd (List.any_eq_true.mpr ⟨t, ht, by simpa using hp⟩) h2
  · intro toks h
    simp [exampleResult, h]
  · intro α d s
    rw [examplePredOf]
    by_cases h : (d s.prompt (effectiveAnswer s)).isEmpty
    · simp [h, List.isEmpty_iff.mp h]
    · have h2 : d s.prompt (effectiveAnswer s) ≠ [] := by
        simpa [List.isEmpty_iff] using h
      rw [Bool.not_eq_true] at h
      simp [h, h2]
  · intro s
    rw [exampleLabelOf]
    by_cases h : s.labels.isEmpty
    · simp [h, List.isEmpty_iff.mp h]
    · have h2 : s.labels ≠ [] := by simpa [List.isEmpty_iff] using h
      rw [Bool.not_eq_true] at h
      simp [h, h2]

/-- Witness for claim C2: a concrete example whose only valid token is
ignored defaults to the all-zero result, and an example with one valid
predicted-class-1 token is predicted positive. -/
theorem C2_example_level_labels_witness :
    ([{ label := -100, pred := 1, prob1 := 9 / 10 }] : List EvalTok).filter
        (fun t => t.label != -100) = []
  ∧ exampleResult [{ label := -100, pred := 1, prob1 := 9 / 10 }] =
      { label := 0, pred := 0, score := 0 }
  ∧ (exampleResult [{ label := 0, pred := 1, prob1 := 0 }]).pred = 1 := by
  have hf : ([{ label := -100, pred := 1, prob1 := 9 / 10 }] : List EvalTok).filter
      (fun t => t.label != -100) = [] := by simp
  refine ⟨hf, C2_example_level_labels.2.2.1 _ hf, ?_⟩
  exact (C2_example_level_labels.1 [{ label := 0, pred := 1, prob1 := 0 }]).mpr
    ⟨{ label := 0, pred := 1, prob1 := 0 }, by simp, rfl⟩

theorem pairOverlap_eq_claim (p g : CSpan) : pairOverlap p g = pairOverlapClaim p g := by
  rw [pairOverlap, pairOverlapClaim]
  rcases le_total (min p.stop g.stop) (max p.start g.start) with h | h <;>
    rcases lt_or_le (max p.start g.start) (min p.stop g.stop) with h2 | h2 <;>
    omega

theorem totalOverlap_eq_claim (pg : List (List CSpan × List CSpan)) :
    totalOverlapChars pg = totalOverlapClaim pg := by
  rw [totalOverlapChars, totalOverlapClaim]
  simp [pairOverlap_eq_claim]

theorem pairOverlap_nonneg (p g : CSpan) : 0 ≤ pairOverlap p g := by
  rw [pairOverlap]
  split <;> omega

theorem totalOverlap_nonneg (pg : List (List CSpan × List CSpan)) :
    0 ≤ totalOverlapChars pg := by
  refine List.sum_nonneg ?_
  intro x hx
  obtain ⟨e, _, rfl⟩ := List.mem_map.mp hx
  refine List.sum_nonneg ?_
  intro y hy
  obtain ⟨p, _, rfl⟩ := List.mem_map.mp hy
  exact List.sum_nonneg (fun z hz => by
    obtain ⟨g, _, rfl⟩ := List.mem_map.mp hz
    exact pairOverlap_nonneg p g)

/-- Claim C3: the character-level evaluator computes precision as
`total_overlap / total_predicted` (0 when the predicted total is 0), recall
as `total_overlap / total_gold` (0 when the gold total is 0) and F1 as their
harmonic mean (0 when the sum is 0), with the overlap summed over all
(predicted, gold) pairs as `max(0, min(ends) - max(starts))` without
deduplication.  The hypotheses state the data-model invariant that spans
satisfy `start <= end` on both sides. -/
theorem C3_char_level_metrics (d : String → String → List CSpan)
    (samples : List Sample)
    (hp : ∀ s ∈ samples, ∀ p ∈ d s.prompt s.answer, p.start ≤ p.stop)
    (hg : ∀ s ∈ samples, ∀ g ∈ s.labels, g.start ≤ g.stop) :
    evaluate_detector_char_level d samples =
      (charPrecisionClaim (samples.map (fun s => (d s.prompt s.answer, s.labels))),
       charRecallClaim (samples.map (fun s => (d s.prompt s.answer, s.labels))),
       charF1Claim (samples.map (fun s => (d s.prompt s.answer, s.labels)))) := by
  set pg := samples.map (fun s => (d s.prompt s.answer, s.labels)) with hpg
  have hpred : 0 ≤ totalPredictedChars pg := by
    refine List.sum_nonneg ?_
    intro x hx
    obtain ⟨e, he, rfl⟩ := List.mem_map.mp hx
    refine List.sum_nonneg ?_
    intro y hy
    obtain ⟨p, hpmem, rfl⟩ := List.mem_map.mp hy
    obtain ⟨s, hs, hes⟩ := List.mem_map.mp he
    have : p.start ≤ p.stop := hp s hs p (by rw [← hes] at hpmem; exact hpmem)
    rw [spanLength]; omega
  have hgold : 0 ≤ totalGoldChars pg := by
    refine List.sum_nonneg ?_
    intro x hx
    obtain ⟨e, he, rfl⟩ := List.mem_map.mp hx
    refine List.sum_nonneg ?_
    intro y hy
    obtain ⟨g, hgmem, rfl⟩ := List.mem_map.mp hy
    obtain ⟨s, hs, hes⟩ := List.mem_map.mp he
    have : g.start ≤ g.stop := hg s hs g (by rw [← hes] at hgmem; exact hgmem)
    rw [spanLength]; omega
  rw [evaluate_detector_char_level, charPrecisionClaim, charRecallClaim, charF1Claim,
    charPrecisionClaim, charRecallClaim, ← hpg, ← totalOverlap_eq_claim]
  have hpiff : (0 < totalPredictedChars pg) ↔ ¬ (totalPredictedChars pg = 0) := by omega
  have hgiff : (0 < totalGoldChars pg) ↔ ¬ (totalGoldChars pg = 0) := by omega
  have hover : (0 : ℚ) ≤ (totalOverlapChars pg : ℚ) := by
    exact_mod_cast totalOverlap_nonneg pg
  have hprec : (if 0 < totalPredictedChars pg then
        (totalOverlapChars pg : ℚ) / (totalPredictedChars pg : ℚ) else 0) =
      (if totalPredictedChars pg = 0 then 0
        else (totalOverlapChars pg : ℚ) / (totalPredictedChars pg : ℚ)) := by
    by_cases h : totalPredictedChars pg = 0 <;> simp [h, hpiff.mpr, *]
  have hrec : (if 0 < totalGoldChars pg then
        (totalOverlapChars pg : ℚ) / (totalGoldChars pg : ℚ) else 0) =
      (if totalGoldChars pg = 0 then 0
        else (totalOverlapChars pg : ℚ) / (totalGoldChars pg : ℚ)) := by
    by_cases h : totalGoldChars pg = 0 <;> simp [h, hgiff.mpr, *]
  rw [hprec, hrec]
  set p : ℚ := if totalPredictedChars pg = 0 then 0
    else (totalOverlapChars pg : ℚ) / (totalPredictedChars pg : ℚ) with hpdef
  set r : ℚ := if totalGoldChars pg = 0 then 0
    else (totalOverlapChars pg : ℚ) / (totalGoldChars pg : ℚ) with hrdef
  have hpnn : 0 ≤ p := by
    rw [hpdef]
    split
    · exact le_refl 0
    · have : (0 : ℚ) ≤ (totalPredictedChars pg : ℚ) := by exact_mod_cast hpred
      exact div_nonneg hover this
  have hrnn : 0 ≤ r := by
    rw [hrdef]
    split
    · exact le_refl 0
    · have : (0 : ℚ) ≤ (totalGoldChars pg : ℚ) := by exact_mod_cast hgold
      exact div_nonneg hover this
  have hsum : (0 < p + r) ↔ ¬ (p + r = 0) := by
    constructor
    · intro h1 h2; rw [h2] at h1; exact lt_irrefl 0 h1
    · intro h1
      rcases lt_or_eq_of_le (add_nonneg hpnn hrnn) with h2 | h2
      · exact h2
      · exact absurd h2.symm h1
  by_cases h : p + r = 0
  · simp [h, hsum.mpr, lt_irrefl]
  · simp [h, hsum.mpr h]

/-- Witness for claim C3, the worked example of the specification:
predicted span (0,5), gold span (2,8), overlap 3, precision 3/5, recall 1/2,
F1 6/11. -/
theorem C3_char_level_metrics_witness :
    (∀ s ∈ [({ prompt := "p", answer := "a", answer_sentences := none,
               labels := [{ start := 2, stop := 8 }] } : Sample)],
       ∀ p ∈ (fun (_ _ : String) => [({ start := 0, stop := 5 } : CSpan)]) s.prompt s.answer,
         p.start ≤ p.stop)
  ∧ evaluate_detector_char_level (fun _ _ => [{ start := 0, stop := 5 }])
      [{ prompt := "p", answer := "a", answer_sentences := none,
         labels := [{ start := 2, stop := 8 }] }] =
      (charPrecisionClaim [([{ start := 0, stop := 5 }], [{ start := 2, stop := 8 }])],
       charRecallClaim [([{ start := 0, stop := 5 }], [{ start := 2, stop := 8 }])],
       charF1Claim [([{ start := 0, stop := 5 }], [{ start := 2, stop := 8 }])]) := by
  refine ⟨by decide, ?_⟩
  exact C3_char_level_metrics (fun _ _ => [{ start := 0, stop := 5 }]) _
    (by decide) (by decide)

/-- Claim C7: the zero-division policy of the per-class aggregation.  For
each class, zero predicted positives force precision 0 and zero actual
positives force recall 0 — a defined value, never an error. -/
theorem C7_zero_division_policy (labels preds : List Int) :
    ((preds.filter (fun p => p == 0)).length = 0 →
        (prfs labels preds).1.precision = 0)
  ∧ ((labels.filter (fun l => l == 0)).length = 0 →
        (prfs labels preds).1.«recall» = 0)
  ∧ ((preds.filter (fun p => p == 1)).length = 0 →
        (prfs labels preds).2.precision = 0)
  ∧ ((labels.filter (fun l => l == 1)).length = 0 →
        (prfs labels preds).2.«recall» = 0) := by
  refine ⟨?_, ?_, ?_, ?_⟩ <;> intro h <;> simp [prfs, classMetrics, h]

/-- Witness for claim C7, the single-example corpus of the specification
(gold label 1, prediction 0): the hallucinated class has no predicted
positives, so its precision is 0, and its recall evaluates to 0. -/
theorem C7_zero_division_policy_witness :
    (([0] : List Int).filter (fun p => p == 1)).length = 0
  ∧ (prfs [1] [0]).2.precision = 0
  ∧ (prfs [1] [0]).2.«recall» = 0 := by
  refine ⟨by decide, (C7_zero_division_policy [1] [0]).2.2.1 (by decide), ?_⟩
  norm_num [prfs, classMetrics]

/-- Counterexample for claim C9: the claim says a detector prediction call
raises a hard error only when the requested output format is neither
"tokens" nor "spans", and returns normally for every supported format; but
`LLMDetector._predict` raises ValueError for "tokens". -/
theorem C9_counterexample :
    isOkE (LLMDetector_predict "irrelevant" "answer" "tokens") = false := by
  rfl

/-- Claim C9 as amended: `TransformerDetector._predict` returns normally iff
the output format is "tokens" or "spans"; `LLMDetector._predict` raises for
every output format other than "spans" (including "tokens") and for "spans"
delegates to its label parser (whose own exceptions are claim C5);
the facade constructor raises iff the method is neither "transformer" nor
"llm". -/
theorem C9_output_format_errors :
    (∀ (toks : List TokenPred) (answer : String) (off : Int) (fmt : String),
        isOkE (TransformerDetector_predict toks answer off fmt) = true ↔
          (fmt = "tokens" ∨ fmt = "spans"))
  ∧ (∀ (content answer fmt : String), fmt ≠ "spans" →
        LLMDetector_predict content answer fmt =
          .error "ValueError: this model can only predict hallucination spans")
  ∧ (∀ (content answer : String),
        LLMDetector_predict content answer "spans" = create_labels content answer)
  ∧ (∀ method : String,
        isOkE (HallucinationDetector_init method) = true ↔
          (method = "transformer" ∨ method = "llm")) := by
  refine ⟨?_, ?_, ?_, ?_⟩
  · intro toks answer off fmt
    rw [TransformerDetector_predict]
    by_cases h1 : fmt = "tokens"
    · simp [h1, isOkE]
    · by_cases h2 : fmt = "spans" <;> simp [h1, h2, isOkE]
  · intro content answer fmt h
    simp [LLMDetector_predict, h]
  · intro content answer
    simp [LLMDetector_predict]
  · intro method
    rw [HallucinationDetector_init]
    by_cases h1 : method = "transformer"
    · simp [h1, isOkE]
    · by_cases h2 : method = "llm" <;> simp [h1, h2, isOkE]

/-- Witness for the amended claim C9: the LLM detector rejects the token
format that the transformer detector accepts, and the facade rejects an
unknown method. -/
theorem C9_output_format_errors_witness :
    LLMDetector_predict "x" "y" "tokens" =
      .error "ValueError: this model can only predict hallucination spans"
  ∧ isOkE (TransformerDetector_predict [] "y" 0 "tokens") = true
  ∧ isOkE (HallucinationDetector_init "gpt") = false := by
  refine ⟨C9_output_format_errors.2.1 "x" "y" "tokens" (by decide), ?_, ?_⟩
  · exact (C9_output_format_errors.1 [] "y" 0 "tokens").mpr (Or.inl rfl)
  · rfl

/-- Counterexample for claim C4: the claim says every evaluation function
finalizes an empty corpus to the zero-valued metrics result and never
raises; but `evaluate_detector_example_level` on zero samples reaches
`roc_curve` with empty arrays, which raises ValueError. -/
theorem C4_counterexample :
    evaluate_detector_example_level (fun _ _ => ([] : List CSpan)) [] =
      .error "ValueError: y_true is empty, pos_label cannot be inferred" := by
  rfl

/-- Claim C4 as amended: on an empty corpus, `evaluate_sentence_model`
(guarded by its `step_count == 0` branch) returns the canonical zero-valued
result without raising, and the char-level evaluator returns all-zero
metrics; but the evaluators that finish with an unguarded `roc_curve` + `auc`
call — `evaluate_model`, `evaluate_model_example_level`,
`evaluate_detector_example_level` and its batch variant — propagate a
ValueError on the empty accumulated arrays instead of returning the
sentinel. -/
theorem C4_empty_corpus :
    (∀ crit, evaluate_sentence_model crit [] = zeroSentence none)
  ∧ (∀ d : String → String → List CSpan,
        evaluate_detector_char_level d [] = (0, 0, 0))
  ∧ (∀ {α : Type} (d : String → String → List α),
        evaluate_detector_example_level d [] =
          .error "ValueError: y_true is empty, pos_label cannot be inferred")
  ∧ (∀ {α : Type} (d : String → String → List α) (bs : Nat),
        evaluate_detector_example_level_batch d [] bs =
          .error "ValueError: y_true is empty, pos_label cannot be inferred")
  ∧ evaluate_model [] =
      .error "ValueError: y_true is empty, pos_label cannot be inferred"
  ∧ evaluate_model_example_level [] =
      .error "ValueError: y_true is empty, pos_label cannot be inferred" := by
  refine ⟨fun crit => rfl, ?_, fun d => rfl, ?_, rfl, rfl⟩
  · intro d
    simp [evaluate_detector_char_level, totalPredictedChars, totalGoldChars,
      totalOverlapChars]
  · intro α d bs
    rw [evaluate_detector_example_level_batch, chunkList]
    rfl

/-- Counterexample for claim C5: the claim says a response with no parseable
JSON object with the hallucination-list key yields zero predicted spans
rather than an exception; but a response containing no brace pair at all
makes `match_dict.group(0)` raise AttributeError (only JSONDecodeError is
caught), and a parsed object without the key raises KeyError. -/
theorem C5_counterexample :
    create_labels "no json here" "some answer" =
      .error "AttributeError: NoneType object has no attribute group"
  ∧ create_labels otherKeyContent "some answer" =
      .error "KeyError: hallucination list" := by
  exact ⟨rfl, rfl⟩

/-- Claim C5 as amended: `LLMDetector._create_labels` returns the empty
label list exactly when a brace-delimited candidate is found but fails JSON
parsing (the JSONDecodeError path); a response with no brace-delimited
substring raises AttributeError, and a parsed value without the
hallucination-list key (or of the wrong shape) raises KeyError/TypeError,
both of which propagate. -/
theorem C5_malformed_llm_output :
    (∀ content answer : String, reSearchBrace content = none →
        create_labels content answer =
          .error "AttributeError: NoneType object has no attribute group")
  ∧ (∀ content answer sub : String, reSearchBrace content = some sub →
        isOkE (jsonParse sub) = false →
        create_labels content answer = .ok [])
  ∧ (∀ (content answer sub : String) (j : Json),
        reSearchBrace content = some sub → jsonParse sub = .ok j →
        create_labels content answer =
          Except.map (fun hals => create_labels_loop hals answer) (halListOf j)) := by
  refine ⟨?_, ?_, ?_⟩
  · intro content answer h
    rw [create_labels, h]
  · intro content answer sub h hj
    rcases hp : jsonParse sub with e | j
    · simp only [create_labels, h, hp]
    · rw [hp] at hj
      simp [isOkE] at hj
  · intro content answer sub j h hj
    simp only [create_labels, h, hj]
    rcases hh : halListOf j with e | hals <;> simp [Except.map, hh]

/-- Witness for the amended claim C5: a response with a brace pair that is
not valid JSON yields the empty label list; one with no brace pair raises. -/
theorem C5_malformed_llm_output_witness :
    reSearchBrace "bad {not json} text" = some "{not json}"
  ∧ isOkE (jsonParse "{not json}") = false
  ∧ create_labels "bad {not json} text" "answer" = .ok []
  ∧ create_labels "plain refusal" "answer" =
      .error "AttributeError: NoneType object has no attribute group" := by
  refine ⟨by rfl, by rfl, ?_, ?_⟩
  · exact C5_malformed_llm_output.2.1 "bad {not json} text" "answer" "{not json}"
      (by rfl) (by rfl)
  · exact C5_malformed_llm_output.1 "plain refusal" "answer" (by rfl)

theorem chunkList_flatten {α : Type} (bs : Nat) (hbs : 1 ≤ bs) :
    ∀ xs : List α, (chunkList bs xs).flatten = xs
  | [] => by rw [chunkList]; rfl
  | x :: xs => by
      rw [chunkList]
      have h0 : ¬ bs = 0 := by omega
      simp only [h0, dif_neg, not_false_iff]
      rw [List.flatten_cons, chunkList_flatten bs hbs ((x :: xs).drop bs),
        List.take_append_drop]
termination_by xs => xs.length
decreasing_by simp [List.length_drop]; omega

theorem zip_map_self {α β γ : Type} (f : α → β) (g : α × β → γ) :
    ∀ l : List α, (l.zip (l.map f)).map g = l.map (fun a => g (a, f a))
  | [] => rfl
  | x :: t => by
      rw [List.map_cons, List.zip_cons_cons, List.map_cons, List.map_cons,
        zip_map_self f g t]

theorem batchAccum_eq {α : Type} (d : String → String → List α) (chunk : List Sample) :
    batchAccum d chunk =
      chunk.map (fun s => (exampleLabelOf s, examplePredOf d s)) := by
  rw [batchAccum, predict_prompt_batch, List.zip_map', List.map_map, zip_map_self]
  rfl

/-- Claim C6: batched and single-pass example-level evaluation agree.  With
the batched detector call modelled from the spec as the per-sample detector
mapped over the batch, every batch size of at least 1 produces exactly the
(label, prediction) pairs of the single-pass evaluator, in corpus order, and
hence the identical metrics result. -/
theorem C6_batch_size_equivalence {α : Type} (d : String → String → List α)
    (samples : List Sample) (batch_size : Nat) (hbs : 1 ≤ batch_size) :
    ((chunkList batch_size samples).map (batchAccum d)).flatten =
      samples.map (fun s => (exampleLabelOf s, examplePredOf d s))
  ∧ evaluate_detector_example_level_batch d samples batch_size =
      evaluate_detector_example_level d samples := by
  have hpairs : ((chunkList batch_size samples).map (batchAccum d)).flatten =
      samples.map (fun s => (exampleLabelOf s, examplePredOf d s)) := by
    have h1 : (chunkList batch_size samples).map (batchAccum d) =
        (chunkList batch_size samples).map
          (List.map (fun s => (exampleLabelOf s, examplePredOf d s))) := by
      exact List.map_congr_left (fun chunk _ => batchAccum_eq d chunk)
    rw [h1, ← List.map_flatten, chunkList_flatten batch_size hbs]
  exact ⟨hpairs, by rw [evaluate_detector_example_level_batch, hpairs]; rfl⟩

/-- Witness for claim C6: a two-sample corpus evaluated with batch size 2
produces the same accumulated pairs and the same result as the single-pass
evaluator. -/
theorem C6_batch_size_equivalence_witness :
    1 ≤ 2
  ∧ evaluate_detector_example_level_batch
        (fun _ _ => [({ start := 0, stop := 1 } : CSpan)])
        [{ prompt := "p", answer := "a", answer_sentences := none,
           labels := [{ start := 2, stop := 8 }] },
         { prompt := "q", answer := "b", answer_sentences := none, labels := [] }] 2 =
      evaluate_detector_example_level (fun _ _ => [({ start := 0, stop := 1 } : CSpan)])
        [{ prompt := "p", answer := "a", answer_sentences := none,
           labels := [{ start := 2, stop := 8 }] },
         { prompt := "q", answer := "b", answer_sentences := none, labels := [] }] := by
  exact ⟨by omega, (C6_batch_size_equivalence _ _ 2 (by omega)).2⟩

theorem findSub_le_length (pat : List Char) :
    ∀ (hay : List Char) (i : Nat), findSub pat hay = some i → i ≤ hay.length
  | [], i => by
      rw [findSub]
      split
      · intro h; simp at h; omega
      · intro h; simp at h
  | c :: t, i => by
      rw [findSub]
      split
      · intro h; simp at h; omega
      · intro h
        rw [Option.map_eq_some'] at h
        obtain ⟨i', hi', rfl⟩ := h
        have := findSub_le_length pat t i' hi'
        simp; omega

theorem findSub_isPrefix (pat : List Char) :
    ∀ (hay : List Char) (i : Nat), findSub pat hay = some i →
      pat.isPrefixOf (hay.drop i) = true
  | [], i => by
      rw [findSub]
      split
      · rename_i hp
        intro h; simp at h; subst h; simpa using hp
      · intro h; simp at h
  | c :: t, i => by
      rw [findSub]
      split
      · rename_i hp
        intro h; simp at h; subst h; simpa using hp
      · intro h
        rw [Option.map_eq_some'] at h
        obtain ⟨i', hi', rfl⟩ := h
        rw [List.drop_succ_cons]
        exact findSub_isPrefix pat t i' hi'

theorem findSub_min (pat : List Char) :
    ∀ (hay : List Char) (i : Nat), findSub pat hay = some i →
      ∀ j < i, pat.isPrefixOf (hay.drop j) = false
  | [], i => by
      rw [findSub]
      split
      · intro h; simp at h; omega
      · intro h; simp at h
  | c :: t, i => by
      rw [findSub]
      split
      · intro h; simp at h; omega
      · rename_i hp
        intro h
        rw [Option.map_eq_some'] at h
        obtain ⟨i', hi', rfl⟩ := h
        intro j hj
        match j with
        | 0 =>
            rw [List.drop_zero]
            cases hb : pat.isPrefixOf (c :: t)
            · rfl
            · exact absurd hb hp
        | j' + 1 =>
            rw [List.drop_succ_cons]
            exact findSub_min pat t i' hi' j' (by omega)

theorem pyIndex_natCast (n i : Nat) : pyIndex n (i : Int) = min i n := by
  rw [pyIndex]
  simp

theorem pySlice_of_prefix (answer : String) (i : Nat) (pat : String)
    (hle : i ≤ answer.toList.length)
    (hpre : List.IsPrefix pat.toList (answer.toList.drop i)) :
    pySlice answer (i : Int) (((i + pat.length : Nat) : Int)) = pat := by
  have hlen : pat.toList.length ≤ (answer.toList.drop i).length :=
    hpre.length_le
  rw [List.length_drop] at hlen
  simp only [pySlice, pyIndex_natCast]
  have h1 : min i answer.toList.length = i := by omega
  have h2 : min (i + pat.length) answer.toList.length = i + pat.length := by
    have : pat.length = pat.toList.length := rfl
    omega
  rw [h1, h2]
  have h3 : i + pat.length - i = pat.length := by omega
  rw [h3]
  have h4 : pat.toList = (answer.toList.drop i).take pat.toList.length :=
    List.prefix_iff_eq_take.mp hpre
  have h5 : pat.length = pat.toList.length := rfl
  rw [h5, ← h4]
  rfl

/-- Claim C10: every label the LLM-based span extraction emits from a parsed
hallucination list points at the earliest occurrence of its text in the
answer (`re.search` with an escaped, hence literal, pattern), the label
bounds recover the text through Python slicing `answer[start:end]`, and a
listed string with no occurrence contributes no label. -/
theorem C10_llm_first_occurrence (hals : List String) (answer : String) :
    (∀ lab ∈ create_labels_loop hals answer,
        lab.text ∈ hals
      ∧ lab.stop = lab.start + lab.text.length
      ∧ List.IsPrefix lab.text.toList (answer.toList.drop lab.start)
      ∧ (∀ j < lab.start, ¬ List.IsPrefix lab.text.toList (answer.toList.drop j))
      ∧ pySlice answer (lab.start : Int) (lab.stop : Int) = lab.text)
  ∧ (∀ hal ∈ hals,
        (∀ j : Nat, ¬ List.IsPrefix hal.toList (answer.toList.drop j)) →
        ∀ lab ∈ create_labels_loop hals answer, lab.text ≠ hal) := by
  constructor
  · intro lab hlab
    obtain ⟨hal, hmem, hfind⟩ := List.mem_filterMap.mp hlab
    rw [Option.map_eq_some'] at hfind
    obtain ⟨i, hi, hlabeq⟩ := hfind
    subst hlabeq
    have hpre : List.IsPrefix hal.toList (answer.toList.drop i) :=
      List.isPrefixOf_iff_prefix.mp (findSub_isPrefix hal.toList answer.toList i hi)
    refine ⟨hmem, rfl, hpre, ?_, ?_⟩
    · intro j hj hc
      have := findSub_min hal.toList answer.toList i hi j hj
      rw [← List.isPrefixOf_iff_prefix] at hc
      rw [this] at hc
      exact Bool.false_ne_true hc
    · exact pySlice_of_prefix answer i hal
        (findSub_le_length hal.toList answer.toList i hi) hpre
  · intro hal _ hnever lab hlab htext
    obtain ⟨hal2, _, hfind⟩ := List.mem_filterMap.mp hlab
    rw [Option.map_eq_some'] at hfind
    obtain ⟨i, hi, hlabeq⟩ := hfind
    have htext2 : lab.text = hal2 := by rw [← hlabeq]
    rw [htext2] at htext
    rw [htext] at hi
    exact hnever i (List.isPrefixOf_iff_prefix.mp
      (findSub_isPrefix hal.toList answer.toList i hi))

/-- Witness for claim C10: the string "bc" occurs in "abcbc" at positions 1
and 3; the emitted label points at position 1, slicing recovers the text,
and no occurrence exists before position 1. -/
theorem C10_llm_first_occurrence_witness :
    ({ start := 1, stop := 3, text := "bc" } : HalLabel) ∈
        create_labels_loop ["bc"] "abcbc"
  ∧ List.IsPrefix "bc".toList ("abcbc".toList.drop 1)
  ∧ (∀ j < 1, ¬ List.IsPrefix "bc".toList ("abcbc".toList.drop j))
  ∧ pySlice "abcbc" 1 3 = "bc" := by
  have hm : ({ start := 1, stop := 3, text := "bc" } : HalLabel) ∈
      create_labels_loop ["bc"] "abcbc" := by
    rw [create_labels_loop]
    refine List.mem_filterMap.mpr ⟨"bc", by simp, ?_⟩
    rfl
  have h := (C10_llm_first_occurrence ["bc"] "abcbc").1
    { start := 1, stop := 3, text := "bc" } hm
  exact ⟨hm, h.2.2.1, h.2.2.2.1, h.2.2.2.2⟩

/-- The invariant maintained by the span loop: the emitted spans are chained
(each ends no later than the next starts), well formed (start before end),
all closed before the bound `b`, and an open span lies after every emitted
span and before the bound. -/
def BuilderInv (st : BuildState) (b : Int) : Prop :=
  List.Chain' (fun x y => x.stop ≤ y.start) st.spans
  ∧ (∀ s ∈ st.spans, s.start ≤ s.stop)
  ∧ (∀ s ∈ st.spans, s.stop ≤ b)
  ∧ (∀ c, st.current = some c →
      c.start ≤ c.stop ∧ c.stop ≤ b ∧ ∀ s ∈ st.spans, s.stop ≤ c.start)

theorem BuilderInv.mono {st : BuildState} {b b' : Int}
    (h : BuilderInv st b) (hb : b ≤ b') : BuilderInv st b' := by
  obtain ⟨h1, h2, h3, h4⟩ := h
  refine ⟨h1, h2, fun s hs => le_trans (h3 s hs) hb, fun c hc => ?_⟩
  obtain ⟨hc1, hc2, hc3⟩ := h4 c hc
  exact ⟨hc1, le_trans hc2 hb, hc3⟩

theorem chain'_snoc {α : Type} (R : α → α → Prop) (l : List α) (y : α)
    (hc : List.Chain' R l) (hy : ∀ x ∈ l, R x y) :
    List.Chain' R (l ++ [y]) := by
  refine List.Chain'.append hc (List.chain'_singleton y) ?_
  intro x hx z hz
  obtain rfl : y = z := by simpa using hz
  obtain ⟨hne, hxl⟩ := List.mem_getLast?_eq_getLast hx
  exact hy x (hxl ▸ List.getLast_mem hne)

theorem spanStep_inv (answer : String) (off : Int) (st : BuildState) (b : Int)
    (t : TokenPred) (hinv : BuilderInv st b)
    (hb : b ≤ (t.tokStart : Int) - off) (hse : t.tokStart ≤ t.tokEnd) :
    BuilderInv (spanStep answer off st t) ((t.tokEnd : Int) - off) := by
  have hcast : (t.tokStart : Int) ≤ (t.tokEnd : Int) := by exact_mod_cast hse
  have hbe : b ≤ (t.tokEnd : Int) - off := by omega
  obtain ⟨h1, h2, h3, h4⟩ := hinv
  rw [spanStep]
  by_cases hl : t.label = -100
  · simp only [hl, if_true]
    exact BuilderInv.mono ⟨h1, h2, h3, h4⟩ hbe
  · simp only [hl, if_false]
    by_cases hw : t.tokStart = t.tokEnd
    · simp only [hw, if_true]
      exact BuilderInv.mono ⟨h1, h2, h3, h4⟩ hbe
    · simp only [hw, if_false]
      by_cases hp : t.pred = 1
      · simp only [hp, if_true]
        rcases hcur : st.current with _ | c
        · simp only
          refine ⟨h1, h2, fun s hs => by have := h3 s hs; omega, ?_⟩
          intro c' hc'
          simp only [Option.some_inj] at hc'
          subst hc'
          exact ⟨by simp; omega, by simp,
            fun s hs => by have := h3 s hs; simp; omega⟩
        · simp only
          obtain ⟨hc1, hc2, hc3⟩ := h4 c hcur
          refine ⟨h1, h2, fun s hs => by have := h3 s hs; omega, ?_⟩
          intro c' hc'
          simp only [Option.some_inj] at hc'
          subst hc'
          exact ⟨by simp; omega, by simp, fun s hs => by simpa using hc3 s hs⟩
      · simp only [hp, if_false]
        rcases hcur : st.current with _ | c
        · simp only
          exact BuilderInv.mono ⟨h1, h2, h3, h4⟩ hbe
        · simp only
          obtain ⟨hc1, hc2, hc3⟩ := h4 c hcur
          refine ⟨?_, ?_, ?_, ?_⟩
          · exact chain'_snoc _ _ _ h1 (fun x hx => hc3 x hx)
          · intro s hs
            rcases List.mem_append.mp hs with hs | hs
            · exact h2 s hs
            · have : s = finishSpan answer c := by simpa using hs
              subst this
              simpa [finishSpan] using hc1
          · intro s hs
            rcases List.mem_append.mp hs with hs | hs
            · have := h3 s hs; omega
            · have : s = finishSpan answer c := by simpa using hs
              subst this
              simp only [finishSpan]
              omega
          · intro c' hc'
            simp at hc'

theorem foldl_spanStep_inv (answer : String) (off : Int) :
    ∀ (toks : List TokenPred) (st : BuildState) (b : Int),
      BuilderInv st b →
      (∀ t ∈ toks, t.tokStart ≤ t.tokEnd) →
      List.Chain' (fun a b => a.tokEnd ≤ b.tokStart) toks →
      (∀ u ∈ toks.head?, b ≤ (u.tokStart : Int) - off) →
      ∃ b', BuilderInv (toks.foldl (spanStep answer off) st) b'
  | [], st, b, hinv, _, _, _ => ⟨b, hinv⟩
  | t :: rest, st, b, hinv, hwf, hchain, hhead => by
      rw [List.foldl_cons]
      obtain ⟨hr, htail⟩ := List.chain'_cons'.mp hchain
      have hb : b ≤ (t.tokStart : Int) - off := hhead t (by simp)
      have hst := spanStep_inv answer off st b t hinv hb (hwf t (by simp))
      refine foldl_spanStep_inv answer off rest _ ((t.tokEnd : Int) - off) hst
        (fun u hu => hwf u (by simp [hu])) htail ?_
      intro u hu
      have h1 : t.tokEnd ≤ u.tokStart := hr u hu
      have : (t.tokEnd : Int) ≤ (u.tokStart : Int) := by exact_mod_cast h1
      omega

theorem spanBuilder_ordered (answer : String) (off : Int) (toks : List TokenPred)
    (hwf : ∀ t ∈ toks, t.tokStart ≤ t.tokEnd)
    (hchain : List.Chain' (fun a b => a.tokEnd ≤ b.tokStart) toks) :
    List.Chain' (fun a b => a.stop ≤ b.start) (spanBuilder answer off toks)
  ∧ ∀ s ∈ spanBuilder answer off toks, s.start ≤ s.stop := by
  set b0 : Int := ((toks.head?.map (fun t => (t.tokStart : Int) - off)).getD 0) with hb0
  have hinit : BuilderInv { spans := [], current := none } b0 := by
    refine ⟨List.chain'_nil, by simp, by simp, ?_⟩
    intro c hc
    simp at hc
  have hhead : ∀ u ∈ toks.head?, b0 ≤ (u.tokStart : Int) - off := by
    intro u hu
    rcases toks with _ | ⟨t, rest⟩
    · simp at hu
    · obtain rfl : t = u := by simpa using hu
      simp [hb0]
  obtain ⟨b', hinv⟩ :=
    foldl_spanStep_inv answer off toks { spans := [], current := none } b0
      hinit hwf hchain hhead
  obtain ⟨h1, h2, h3, h4⟩ := hinv
  rw [spanBuilder]
  rcases hcur : (toks.foldl (spanStep answer off) { spans := [], current := none }).current
    with _ | c
  · simp only
    exact ⟨h1, h2⟩
  · simp only
    obtain ⟨hc1, hc2, hc3⟩ := h4 c hcur
    constructor
    · exact chain'_snoc _ _ _ h1 (fun x hx => hc3 x hx)
    · intro s hs
      rcases List.mem_append.mp hs with hs | hs
      · exact h2 s hs
      · have : s = finishSpan answer c := by simpa using hs
        subst this
        simpa [finishSpan] using hc1

theorem chain'_start_of_stop :
    ∀ l : List Span, List.Chain' (fun a b => a.stop ≤ b.start) l →
      (∀ s ∈ l, s.start ≤ s.stop) →
      List.Chain' (fun a b => a.start ≤ b.start) l
  | [], _, _ => List.chain'_nil
  | x :: l, hc, hwf => by
      obtain ⟨hx, hl⟩ := List.chain'_cons'.mp hc
      refine List.chain'_cons'.mpr ⟨?_, ?_⟩
      · intro y hy
        have h1 := hx y hy
        have h2 := hwf x (by simp)
        omega
      · exact chain'_start_of_stop l hl (fun s hs => hwf s (by simp [hs]))

/-- Claim C8: for a token stream with monotonically non-decreasing character
offsets (the flattened offset sequence start, end, start, end, ... never
decreases: each token starts no later than it ends, and each token ends no
later than the next one starts), the Span Builder emits spans whose adjacent
pairs satisfy `spans[i].end <= spans[i+1].start`, and the spans appear in
non-decreasing start order. -/
theorem C8_spans_ordered_nonoverlapping (answer : String) (off : Int)
    (toks : List TokenPred)
    (hwf : ∀ t ∈ toks, t.tokStart ≤ t.tokEnd)
    (hchain : List.Chain' (fun a b => a.tokEnd ≤ b.tokStart) toks) :
    List.Chain' (fun a b => a.stop ≤ b.start) (spanBuilder answer off toks)
  ∧ List.Chain' (fun a b => a.start ≤ b.start) (spanBuilder answer off toks) := by
  obtain ⟨h1, h2⟩ := spanBuilder_ordered answer off toks hwf hchain
  exact ⟨h1, chain'_start_of_stop _ h1 h2⟩

/-- Witness for claim C8: a concrete monotone stream with two class-1 runs
produces two ordered, non-overlapping spans. -/
theorem C8_spans_ordered_nonoverlapping_witness :
    (∀ t ∈ [({ tok := "a", label := 0, tokStart := 0, tokEnd := 2, pred := 1, prob1 := 1/2 } : TokenPred),
            { tok := "b", label := 0, tokStart := 2, tokEnd := 3, pred := 0, prob1 := 1/2 },
            { tok := "c", label := 0, tokStart := 4, tokEnd := 6, pred := 1, prob1 := 1/2 }],
        t.tokStart ≤ t.tokEnd)
  ∧ List.Chain' (fun a b => a.tokEnd ≤ b.tokStart)
      [({ tok := "a", label := 0, tokStart := 0, tokEnd := 2, pred := 1, prob1 := 1/2 } : TokenPred),
       { tok := "b", label := 0, tokStart := 2, tokEnd := 3, pred := 0, prob1 := 1/2 },
       { tok := "c", label := 0, tokStart := 4, tokEnd := 6, pred := 1, prob1 := 1/2 }]
  ∧ List.Chain' (fun a b => a.stop ≤ b.start)
      (spanBuilder "abcdef" 0
        [{ tok := "a", label := 0, tokStart := 0, tokEnd := 2, pred := 1, prob1 := 1/2 },
         { tok := "b", label := 0, tokStart := 2, tokEnd := 3, pred := 0, prob1 := 1/2 },
         { tok := "c", label := 0, tokStart := 4, tokEnd := 6, pred := 1, prob1 := 1/2 }]) := by
  refine ⟨?_, ?_, ?_⟩
  · intro t ht
    fin_cases ht <;> decide
  · refine List.chain'_cons'.mpr ⟨?_, List.chain'_cons'.mpr ⟨?_, List.chain'_singleton _⟩⟩
    · intro y hy; simp at hy; subst hy; decide
    · intro y hy; simp at hy; subst hy; decide
  · refine (C8_spans_ordered_nonoverlapping "abcdef" 0 _ ?_ ?_).1
    · intro t ht
      fin_cases ht <;> decide
    · refine List.chain'_cons'.mpr ⟨?_, List.chain'_cons'.mpr ⟨?_, List.chain'_singleton _⟩⟩
      · intro y hy; simp at hy; subst hy; decide
      · intro y hy; simp at hy; subst hy; decide

end LettuceDetect
